import Mathlib

/-!
Verification of the aws-node-retag controller (cmd/aws-node-retag/main.go).

Strings are embedded as `List Char` (`Str`).  The Go standard-library
function `strings.Split` with a one-character separator is embedded as
`goSplit`; the parsers `parseInstanceID` and `parseRegion` are direct
translations of the Go functions of the same names.  The effectful parts
(EC2 DescribeInstances, EC2 CreateTags, the Kubernetes node patch) are
embedded by explicit state passing over a `World` that scripts the
responses of the external services and records every outgoing call.
-/

/-- Strings of the embedded program. -/
abbrev Str := List Char

/-- Embedding of Go `strings.Split(s, sep)` for a one-character separator:
`goSplit sep s` splits `s` at every occurrence of `sep`; on the empty
string it returns `[[]]`, matching Go's `strings.Split("", "/") == [""]`. -/
def goSplit (sep : Char) : Str → List Str
  | [] => [[]]
  | c :: cs =>
    if c = sep then [] :: goSplit sep cs
    else
      match goSplit sep cs with
      | [] => [[c]]
      | r :: rs => (c :: r) :: rs

theorem goSplit_ne_nil (sep : Char) (s : Str) : goSplit sep s ≠ [] := by
  cases s with
  | nil => simp [goSplit]
  | cons c cs =>
    simp only [goSplit]
    split
    · simp
    · split <;> simp

theorem goSplit_no_sep (sep : Char) (xs : Str) (h : sep ∉ xs) :
    goSplit sep xs = [xs] := by
  induction xs with
  | nil => rfl
  | cons c cs ih =>
    have hc : ¬ c = sep := fun hh => h (hh ▸ List.mem_cons_self c cs)
    have hcs : sep ∉ cs := fun hh => h (List.mem_cons_of_mem c hh)
    simp only [goSplit, if_neg hc, ih hcs]

theorem goSplit_append_sep (sep : Char) (xs ys : Str) (h : sep ∉ xs) :
    goSplit sep (xs ++ sep :: ys) = xs :: goSplit sep ys := by
  induction xs with
  | nil => simp [goSplit]
  | cons c cs ih =>
    have hc : ¬ c = sep := fun hh => h (hh ▸ List.mem_cons_self c cs)
    have hcs : sep ∉ cs := fun hh => h (List.mem_cons_of_mem c hh)
    simp only [List.cons_append, goSplit, if_neg hc, List.append_eq, ih hcs]

deriving instance DecidableEq for Except

/-- Embedding of Go `parseInstanceID` (main.go:187-194): split the
provider id on `/`, take the last segment, require the `i-` instance-id
marker at its start. -/
def parseInstanceID (providerID : Str) : Except Str Str :=
  if ("i-".toList).isPrefixOf ((goSplit '/' providerID).getLastD []) then
    .ok ((goSplit '/' providerID).getLastD [])
  else
    .error (("expected instance ID starting with i-, got ".toList)
      ++ ((goSplit '/' providerID).getLastD []))

/-- Embedding of Go `parseRegion` (main.go:198-208): split the provider id
on `/`, require at least two segments, take the second-to-last segment
(the availability zone), require its length to be at least 2, and drop its
final character. -/
def parseRegion (providerID : Str) : Except Str Str :=
  if (goSplit '/' providerID).length < 2 then
    .error (("unexpected providerID format: ".toList) ++ providerID)
  else if ((goSplit '/' providerID).getD
      ((goSplit '/' providerID).length - 2) []).length < 2 then
    .error (("AZ too short to derive region: ".toList)
      ++ ((goSplit '/' providerID).getD ((goSplit '/' providerID).length - 2) []))
  else
    .ok (((goSplit '/' providerID).getD
      ((goSplit '/' providerID).length - 2) []).dropLast)

/-- The idempotency marker key (Go const `annotationKey`). -/
def annotKey : Str := "aws-node-retag.io/tagged".toList

/-- The idempotency marker value (Go const `annotationValue`). -/
def annotVal : Str := "true".toList

/-- A Kubernetes node as handleNode reads it: its name, its metadata
key/value map (Go `node.Annotations`), and `node.Spec.ProviderID`. -/
structure Node where
  name : Str
  annots : List (Str × Str)
  providerID : Str
deriving DecidableEq

/-- Go map read with zero value: `m[k]` is the stored value, or the empty
string when the key is absent. -/
def lookupD (m : List (Str × Str)) (k : Str) : Str :=
  match m.find? (fun p => p.1 == k) with
  | some p => p.2
  | none => []

/-- Errors returned by the EC2 API: the transient "resource not yet
visible" condition, or any other failure. -/
inductive AWSErr
  | notVisible
  | other (msg : Str)
deriving DecidableEq

/-- The message text of an EC2 API error, used when wrapping with
`fmt.Errorf("...: %w", err)`. -/
def AWSErr.msg : AWSErr → Str
  | .notVisible => "resource not yet visible".toList
  | .other m => m

/-- An EBS block-device entry of a DescribeInstances reply
(`bdm.Ebs.VolumeId`, either pointer possibly nil). -/
structure Ebs where
  volumeId : Option Str
deriving DecidableEq

/-- A block-device mapping of a DescribeInstances reply (`bdm.Ebs` may be
nil). -/
structure BDM where
  ebs : Option Ebs
deriving DecidableEq

/-- An EC2 instance record of a DescribeInstances reply. -/
structure Ec2Inst where
  blockDeviceMappings : List BDM
deriving DecidableEq

/-- A reservation of a DescribeInstances reply. -/
structure Reservation where
  instances : List Ec2Inst
deriving DecidableEq

/-- The volume-collection loop of `listAttachedVolumes` (main.go:221-230):
every `bdm.Ebs.VolumeId` that is non-nil under a non-nil `bdm.Ebs`,
walking reservations then instances then block-device mappings. -/
def collectVolumeIDs (rs : List Reservation) : List Str :=
  rs.flatMap (fun r =>
    r.instances.flatMap (fun i =>
      i.blockDeviceMappings.filterMap (fun b =>
        b.ebs.bind (fun e => e.volumeId))))

/-- A recorded `ec2:DescribeInstances` call: the region option and the
`InstanceIds` filter. -/
structure DescribeCall where
  region : Str
  instanceIds : List Str
deriving DecidableEq

/-- A recorded `ec2:CreateTags` call: the region option, the `Resources`
list and the `Tags` list. -/
structure TagCall where
  region : Str
  resources : List Str
  tags : List (Str × Str)
deriving DecidableEq

/-- The Kubernetes patch flavor passed to `Nodes().Patch`;
`annotateNode` passes `types.MergePatchType`. -/
inductive PatchType
  | merge
  | json
  | strategic
deriving DecidableEq

/-- A recorded node patch call: target node, patch flavor, and the
annotation key/value pairs the patch body sets (the body built in
`annotateNode` encodes exactly one pair under metadata/annotations). -/
structure PatchCall where
  nodeName : Str
  ptype : PatchType
  body : List (Str × Str)
deriving DecidableEq

/-- The external world: scripted responses of the EC2 API and of the
Kubernetes API server (consumed in order, one per call), the log of every
outgoing call, and the API server's copy of the node's annotation map
(`store`).  An exhausted response list behaves as an error reply. -/
structure World where
  describeResps : List (Except AWSErr (List Reservation))
  tagResps : List (Except AWSErr Unit)
  patchResps : List (Except Str Unit)
  describeCalls : List DescribeCall
  tagCalls : List TagCall
  patchCalls : List PatchCall
  store : List (Str × Str)
deriving DecidableEq

/-- Embedding of `Tagger.listAttachedVolumes` (main.go:211-232): one
DescribeInstances call with `InstanceIds = [instanceID]` in the given
region; an API error is wrapped as `DescribeInstances: ...`; otherwise the
attached EBS volume ids are collected. -/
def listAttachedVolumes (w : World) (region instanceID : Str) :
    Except Str (List Str) × World :=
  match w.describeResps with
  | [] =>
    (.error (("DescribeInstances: ".toList) ++ ("no response".toList)),
     { w with describeCalls := w.describeCalls ++ [⟨region, [instanceID]⟩] })
  | resp :: rest =>
    let w' := { w with
      describeResps := rest,
      describeCalls := w.describeCalls ++ [⟨region, [instanceID]⟩] }
    match resp with
    | .error e => (.error (("DescribeInstances: ".toList) ++ e.msg), w')
    | .ok rs => (.ok (collectVolumeIDs rs), w')

/-- Embedding of `Tagger.applyTags` (main.go:235-254): exactly one
CreateTags call on the given resource ids with the configured tag set in
the given region; an API error is wrapped as `CreateTags: ...` and
returned immediately (the Go function has no retry loop). -/
def applyTags (w : World) (region : Str) (resourceIDs : List Str)
    (tags : List (Str × Str)) : Except Str Unit × World :=
  match w.tagResps with
  | [] =>
    (.error (("CreateTags: ".toList) ++ ("no response".toList)),
     { w with tagCalls := w.tagCalls ++ [⟨region, resourceIDs, tags⟩] })
  | resp :: rest =>
    let w' := { w with
      tagResps := rest,
      tagCalls := w.tagCalls ++ [⟨region, resourceIDs, tags⟩] }
    match resp with
    | .error e => (.error (("CreateTags: ".toList) ++ e.msg), w')
    | .ok _ => (.ok (), w')

/-- Merge-patch application on an annotation map, as the Kubernetes API
server applies a `MergePatchType` body to metadata/annotations: each key
in the body is set to the body's value, every other key is untouched.
Modelled behavior of the external cluster store. -/
def setKV (m : List (Str × Str)) (k v : Str) : List (Str × Str) :=
  match m with
  | [] => [(k, v)]
  | p :: rest => if p.1 == k then (k, v) :: rest else p :: setKV rest k v

/-- Apply a merge-patch body (a list of annotation key/value pairs) to an
annotation map, key by key. -/
def mergePatch (m : List (Str × Str)) (body : List (Str × Str)) :
    List (Str × Str) :=
  body.foldl (fun acc kv => setKV acc kv.1 kv.2) m

/-- Embedding of `Tagger.annotateNode` (main.go:257-267): one merge patch
on the node whose body sets exactly the pair `annotKey := annotVal`; on
success the store applies the merge patch, on failure the store is
untouched and the error is returned. -/
def annotateNode (w : World) (nodeName : Str) : Except Str Unit × World :=
  let body := [(annotKey, annotVal)]
  match w.patchResps with
  | [] =>
    (.error ("no response".toList),
     { w with patchCalls := w.patchCalls ++ [⟨nodeName, .merge, body⟩] })
  | resp :: rest =>
    let w' := { w with
      patchResps := rest,
      patchCalls := w.patchCalls ++ [⟨nodeName, .merge, body⟩] }
    match resp with
    | .error e => (.error e, w')
    | .ok _ => (.ok (), { w' with store := mergePatch w'.store body })

/-- The reconciliation outcome, one constructor per return path of
`handleNode`; `patchFailed` is the spec's PartialFailure, `listFailed`
and `tagFailed` are the spec's Failed. -/
inductive Outcome
  | skippedTagged
  | skippedNoProviderID
  | skippedNotAWS
  | parseFailed
  | listFailed
  | tagFailed
  | patchFailed
  | tagged
deriving DecidableEq

/-- Embedding of `Tagger.handleNode` (main.go:131-183), with the
configured tag set (`t.tags`) passed explicitly: skip when the node
already carries `annotKey = annotVal`, skip when the ProviderID is empty,
skip when it lacks the `aws://` scheme, drop the event on parse failure,
then list attached volumes, tag the instance together with its volumes in
one call, and finally patch the idempotency marker. -/
def handleNode (w : World) (node : Node) (tags : List (Str × Str)) :
    Outcome × World :=
  if lookupD node.annots annotKey = annotVal then (.skippedTagged, w)
  else if node.providerID = [] then (.skippedNoProviderID, w)
  else if ("aws://".toList).isPrefixOf node.providerID = false then
    (.skippedNotAWS, w)
  else
    match parseInstanceID node.providerID with
    | .error _ => (.parseFailed, w)
    | .ok instanceID =>
      match parseRegion node.providerID with
      | .error _ => (.parseFailed, w)
      | .ok region =>
        match listAttachedVolumes w region instanceID with
        | (.error _, w₁) => (.listFailed, w₁)
        | (.ok volumeIDs, w₁) =>
          match applyTags w₁ region (instanceID :: volumeIDs) tags with
          | (.error _, w₂) => (.tagFailed, w₂)
          | (.ok _, w₂) =>
            match annotateNode w₂ node.name with
            | (.error _, w₃) => (.patchFailed, w₃)
            | (.ok _, w₃) => (.tagged, w₃)

/-- Embedding of the informer `UpdateFunc` (main.go:96-108): the
reconciler runs only when the ProviderID transitions from empty to
non-empty; every other update is ignored. -/
def updateFunc (w : World) (tags : List (Str × Str)) (oldNode newNode : Node) :
    Option Outcome × World :=
  if oldNode.providerID = [] ∧ ¬ newNode.providerID = [] then
    let r := handleNode w newNode tags
    (some r.1, r.2)
  else (none, w)

theorem listAttachedVolumes_effect (w : World) (region instanceID : Str) :
    (listAttachedVolumes w region instanceID).2.describeResps = w.describeResps.tail ∧
    (listAttachedVolumes w region instanceID).2.tagResps = w.tagResps ∧
    (listAttachedVolumes w region instanceID).2.patchResps = w.patchResps ∧
    (listAttachedVolumes w region instanceID).2.describeCalls
      = w.describeCalls ++ [⟨region, [instanceID]⟩] ∧
    (listAttachedVolumes w region instanceID).2.tagCalls = w.tagCalls ∧
    (listAttachedVolumes w region instanceID).2.patchCalls = w.patchCalls ∧
    (listAttachedVolumes w region instanceID).2.store = w.store := by
  unfold listAttachedVolumes
  cases hw : w.describeResps with
  | nil => simp
  | cons r rs => cases r <;> simp

theorem applyTags_effect (w : World) (region : Str) (resourceIDs : List Str)
    (tags : List (Str × Str)) :
    (applyTags w region resourceIDs tags).2.tagCalls
      = w.tagCalls ++ [⟨region, resourceIDs, tags⟩] ∧
    (applyTags w region resourceIDs tags).2.tagResps = w.tagResps.tail ∧
    (applyTags w region resourceIDs tags).2.describeResps = w.describeResps ∧
    (applyTags w region resourceIDs tags).2.patchResps = w.patchResps ∧
    (applyTags w region resourceIDs tags).2.describeCalls = w.describeCalls ∧
    (applyTags w region resourceIDs tags).2.patchCalls = w.patchCalls ∧
    (applyTags w region resourceIDs tags).2.store = w.store ∧
    ((applyTags w region resourceIDs tags).1 = .ok () ↔
      w.tagResps.head? = some (.ok ())) := by
  unfold applyTags
  cases hw : w.tagResps with
  | nil => simp
  | cons r rs => cases r <;> simp

theorem annotateNode_effect (w : World) (nodeName : Str) :
    (annotateNode w nodeName).2.patchCalls
      = w.patchCalls ++ [⟨nodeName, .merge, [(annotKey, annotVal)]⟩] ∧
    (annotateNode w nodeName).2.patchResps = w.patchResps.tail ∧
    (annotateNode w nodeName).2.describeResps = w.describeResps ∧
    (annotateNode w nodeName).2.tagResps = w.tagResps ∧
    (annotateNode w nodeName).2.describeCalls = w.describeCalls ∧
    (annotateNode w nodeName).2.tagCalls = w.tagCalls ∧
    ((annotateNode w nodeName).1 = .ok () ↔
      w.patchResps.head? = some (.ok ())) ∧
    (∀ e, (annotateNode w nodeName).1 = .error e →
      (annotateNode w nodeName).2.store = w.store) := by
  unfold annotateNode
  cases hw : w.patchResps with
  | nil => simp
  | cons r rs => cases r <;> simp

/-- A world whose EC2 endpoint is scripted to answer every CreateTags call
with the transient not-visible error. -/
def worldAlwaysNotVisible : World :=
  { describeResps := []
    tagResps := [.error .notVisible, .error .notVisible, .error .notVisible,
                 .error .notVisible, .error .notVisible]
    patchResps := []
    describeCalls := []
    tagCalls := []
    patchCalls := []
    store := [] }

/-- C1 counterexample: against an endpoint that reports the transient
not-visible condition on every attempt, `applyTags` performs exactly one
CreateTags attempt (the claim demands five) and surfaces the error
immediately, leaving the remaining four scripted replies unconsumed. -/
theorem applyTags_notVisible_one_attempt_cex :
    (applyTags worldAlwaysNotVisible ("us-east-1".toList)
      [("i-0abc123def456789a".toList)] [(("k".toList), ("v".toList))]).2.tagCalls.length = 1 ∧
    (applyTags worldAlwaysNotVisible ("us-east-1".toList)
      [("i-0abc123def456789a".toList)] [(("k".toList), ("v".toList))]).2.tagResps.length = 4 ∧
    (applyTags worldAlwaysNotVisible ("us-east-1".toList)
      [("i-0abc123def456789a".toList)] [(("k".toList), ("v".toList))]).1
      = .error (("CreateTags: ".toList) ++ ("resource not yet visible".toList)) := by
  decide

/-- C1 (amended): `applyTags` makes exactly one CreateTags attempt in
every run: the call log grows by exactly the one call, exactly one
scripted reply is consumed, and the result is success precisely when that
single reply is a success — every error, the transient not-visible
condition included, surfaces immediately with no retry. -/
theorem applyTags_single_attempt (w : World) (region : Str)
    (resourceIDs : List Str) (tags : List (Str × Str)) :
    (applyTags w region resourceIDs tags).2.tagCalls
      = w.tagCalls ++ [⟨region, resourceIDs, tags⟩] ∧
    (applyTags w region resourceIDs tags).2.tagResps = w.tagResps.tail ∧
    ((applyTags w region resourceIDs tags).1 = .ok () ↔
      w.tagResps.head? = some (.ok ())) := by
  obtain ⟨h1, h2, -, -, -, -, -, h8⟩ := applyTags_effect w region resourceIDs tags
  exact ⟨h1, h2, h8⟩

/-- C2 counterexample: `aws:///us-east-1a/invalid` has a final segment
without the `i-` marker, yet `parseRegion` succeeds on it; and `i-0abc`
has a single `/`-segment, yet `parseInstanceID` succeeds on it — so the
claim that BOTH parsers fail on every such input is false. -/
theorem parsers_error_conditions_cex :
    ("i-".toList).isPrefixOf
      ((goSplit '/' ("aws:///us-east-1a/invalid".toList)).getLastD []) = false ∧
    parseRegion ("aws:///us-east-1a/invalid".toList) = .ok ("us-east-1".toList) ∧
    (goSplit '/' ("i-0abc".toList)).length < 2 ∧
    parseInstanceID ("i-0abc".toList) = .ok ("i-0abc".toList) := by
  decide

/-- C2 (amended): each parser checks only its own condition.
`parseInstanceID` fails exactly when the final `/`-segment lacks the `i-`
marker (regardless of the segment count), and `parseRegion` fails exactly
when there are fewer than two segments or the second-to-last segment is
shorter than two characters (regardless of the final segment); hence one
parser may succeed while the other fails. -/
theorem parsers_error_conditions_amended (p : Str) :
    ((∃ e, parseInstanceID p = .error e) ↔
      ("i-".toList).isPrefixOf ((goSplit '/' p).getLastD []) = false) ∧
    ((∃ e, parseRegion p = .error e) ↔
      ((goSplit '/' p).length < 2 ∨
        ((goSplit '/' p).getD ((goSplit '/' p).length - 2) []).length < 2)) := by
  constructor
  · unfold parseInstanceID
    cases hb : ("i-".toList).isPrefixOf ((goSplit '/' p).getLastD []) <;> simp
  · unfold parseRegion
    by_cases h1 : (goSplit '/' p).length < 2
    · rw [if_pos h1]
      exact iff_of_true ⟨_, rfl⟩ (Or.inl h1)
    · rw [if_neg h1]
      by_cases h2 :
          ((goSplit '/' p).getD ((goSplit '/' p).length - 2) []).length < 2
      · rw [if_pos h2]
        exact iff_of_true ⟨_, rfl⟩ (Or.inr h2)
      · rw [if_neg h2]
        exact iff_of_false (by simp) (fun h => h.elim h1 h2)

theorem goSplit_cons_sep (sep : Char) (ys : Str) :
    goSplit sep (sep :: ys) = [] :: goSplit sep ys := by
  simp [goSplit]

/-- C3: on every provider identifier of the shape `<scheme>///<zone>/<id>`
whose instance-id segment carries the `i-` marker and whose zone segment
has length at least 2 (segments containing no `/`), `parseInstanceID`
returns the instance-id segment exactly and `parseRegion` returns the
zone with its final character removed, both without error. -/
theorem parse_valid_providerID (scheme zone id : Str)
    (hs : '/' ∉ scheme) (hz : '/' ∉ zone) (hi : '/' ∉ id)
    (hpfx : ("i-".toList).isPrefixOf id = true)
    (hlen : 2 ≤ zone.length) :
    parseInstanceID (scheme ++ "///".toList ++ zone ++ "/".toList ++ id)
      = .ok id ∧
    parseRegion (scheme ++ "///".toList ++ zone ++ "/".toList ++ id)
      = .ok zone.dropLast := by
  have hform : scheme ++ "///".toList ++ zone ++ "/".toList ++ id
      = scheme ++ '/' :: '/' :: '/' :: (zone ++ '/' :: id) := by
    simp [List.append_assoc]
  have hsplit : goSplit '/' (scheme ++ "///".toList ++ zone ++ "/".toList ++ id)
      = [scheme, [], [], zone, id] := by
    rw [hform, goSplit_append_sep '/' scheme _ hs, goSplit_cons_sep,
      goSplit_cons_sep, goSplit_append_sep '/' zone _ hz, goSplit_no_sep '/' id hi]
  constructor
  · unfold parseInstanceID
    rw [hsplit]
    have hlast : ([scheme, [], [], zone, id] : List Str).getLastD [] = id := by
      simp
    rw [hlast, if_pos hpfx]
  · unfold parseRegion
    rw [hsplit]
    have h5 : ([scheme, [], [], zone, id] : List Str).length = 5 := by simp
    rw [h5]
    rw [if_neg (by omega)]
    have hget : ([scheme, [], [], zone, id] : List Str).getD (5 - 2) [] = zone := by
      simp [List.getD]
    rw [hget, if_neg (by omega)]

/-- C3 witness: the reference provider id parses to its instance id and
to the zone with its final letter removed. -/
theorem parse_valid_providerID_witness :
    parseInstanceID ("aws:///us-east-1a/i-0abc123def456789a".toList)
      = .ok ("i-0abc123def456789a".toList) ∧
    parseRegion ("aws:///us-east-1a/i-0abc123def456789a".toList)
      = .ok ("us-east-1".toList) := by
  have h := parse_valid_providerID ("aws:".toList) ("us-east-1a".toList)
    ("i-0abc123def456789a".toList) (by decide) (by decide) (by decide)
    (by decide) (by decide)
  have e : ("aws:".toList ++ "///".toList ++ "us-east-1a".toList
      ++ "/".toList ++ "i-0abc123def456789a".toList : Str)
      = "aws:///us-east-1a/i-0abc123def456789a".toList := by decide
  rw [e] at h
  exact ⟨h.1, h.2.trans (by decide)⟩

/-- C10: whenever the split provider identifier has at least two segments
and the second-to-last segment has length at least 2, `parseRegion`
succeeds and returns that segment with its final character removed — with
no validation that the segment is zone-shaped, so a bare region such as
`us-east-1` is truncated to `us-east-`. -/
theorem parseRegion_no_zone_validation (p : Str)
    (h1 : 2 ≤ (goSplit '/' p).length)
    (h2 : 2 ≤ ((goSplit '/' p).getD ((goSplit '/' p).length - 2) []).length) :
    parseRegion p
      = .ok (((goSplit '/' p).getD ((goSplit '/' p).length - 2) []).dropLast) := by
  unfold parseRegion
  rw [if_neg (by omega), if_neg (by omega)]

/-- C10 witness: a provider id whose second-to-last segment is already the
bare region `us-east-1` is truncated to `us-east-`. -/
theorem parseRegion_no_zone_validation_witness :
    2 ≤ (goSplit '/' ("aws:///us-east-1/i-0abc123def456789a".toList)).length ∧
    parseRegion ("aws:///us-east-1/i-0abc123def456789a".toList)
      = .ok ("us-east-".toList) :=
  ⟨by decide,
    (parseRegion_no_zone_validation ("aws:///us-east-1/i-0abc123def456789a".toList)
      (by decide) (by decide)).trans (by decide)⟩

/-- A world with no scripted responses and no recorded calls. -/
def emptyWorld : World :=
  { describeResps := []
    tagResps := []
    patchResps := []
    describeCalls := []
    tagCalls := []
    patchCalls := []
    store := [] }

/-- A node already carrying the idempotency marker. -/
def nodeTagged : Node :=
  { name := "ip-10-0-0-1".toList
    annots := [(annotKey, annotVal)]
    providerID := "aws:///us-east-1a/i-0abc123def456789a".toList }

/-- An untagged node with a valid AWS provider identifier. -/
def nodeUntagged : Node :=
  { name := "ip-10-0-0-2".toList
    annots := []
    providerID := "aws:///us-east-1a/i-0abc123def456789a".toList }

/-- C4: a node whose metadata carries the marker key with exactly the
value `true` is skipped by `handleNode` with the world untouched (no
cloud call, no patch call — so a second invocation on an already-tagged
node is free), while any other value of the key never takes the
already-tagged skip path. -/
theorem handleNode_tagged_skip (w : World) (node : Node)
    (tags : List (Str × Str)) :
    (lookupD node.annots annotKey = annotVal →
      handleNode w node tags = (.skippedTagged, w)) ∧
    (lookupD node.annots annotKey ≠ annotVal →
      (handleNode w node tags).1 ≠ .skippedTagged) := by
  constructor
  · intro h
    unfold handleNode
    rw [if_pos h]
  · intro h
    unfold handleNode
    rw [if_neg h]
    repeat' split
    all_goals simp

/-- C4 witness: on a concretely tagged node `handleNode` returns the
skip outcome and the world unchanged. -/
theorem handleNode_tagged_skip_witness :
    lookupD nodeTagged.annots annotKey = annotVal ∧
    handleNode emptyWorld nodeTagged [(("k".toList), ("v".toList))]
      = (.skippedTagged, emptyWorld) :=
  ⟨by decide,
    (handleNode_tagged_skip emptyWorld nodeTagged
      [(("k".toList), ("v".toList))]).1 (by decide)⟩

/-- C7: a node whose provider identifier is non-empty but lacks the
`aws://` scheme never changes the world (no cloud call, no patch call),
and — when the node is not already marked — takes exactly the
foreign-provider warning skip path. -/
theorem handleNode_foreign_provider_skip (w : World) (node : Node)
    (tags : List (Str × Str))
    (hPid : node.providerID ≠ [])
    (hAws : ("aws://".toList).isPrefixOf node.providerID = false) :
    (handleNode w node tags).2 = w ∧
    (lookupD node.annots annotKey ≠ annotVal →
      handleNode w node tags = (.skippedNotAWS, w)) := by
  constructor
  · unfold handleNode
    by_cases h : lookupD node.annots annotKey = annotVal
    · rw [if_pos h]
    · rw [if_neg h, if_neg hPid, if_pos hAws]
  · intro h
    unfold handleNode
    rw [if_neg h, if_neg hPid, if_pos hAws]

/-- A node with a non-AWS (foreign cloud) provider identifier. -/
def nodeForeign : Node :=
  { name := "gke-node-1".toList
    annots := []
    providerID := "gce://proj/us-central1-a/gke-node-1".toList }

/-- C7 witness: a concrete foreign-provider node is skipped with the
world unchanged. -/
theorem handleNode_foreign_provider_skip_witness :
    nodeForeign.providerID ≠ [] ∧
    handleNode emptyWorld nodeForeign [(("k".toList), ("v".toList))]
      = (.skippedNotAWS, emptyWorld) :=
  ⟨by decide,
    (handleNode_foreign_provider_skip emptyWorld nodeForeign
      [(("k".toList), ("v".toList))] (by decide) (by decide)).2 (by decide)⟩

/-- C8: the update dispatcher runs the reconciler exactly on the
transition of the provider identifier from empty to non-empty — an update
whose old identifier was already set, or whose new identifier is still
empty, never invokes the reconciler and leaves the world untouched — and
a node observed with an empty provider identifier is skipped silently
with the world untouched. -/
theorem updateFunc_first_set_only (w : World) (tags : List (Str × Str))
    (oldNode newNode : Node) :
    (¬ (oldNode.providerID = [] ∧ ¬ newNode.providerID = []) →
      updateFunc w tags oldNode newNode = (none, w)) ∧
    (oldNode.providerID = [] → newNode.providerID ≠ [] →
      updateFunc w tags oldNode newNode
        = (some (handleNode w newNode tags).1, (handleNode w newNode tags).2)) ∧
    (∀ node : Node, node.providerID = [] →
      (handleNode w node tags).2 = w ∧
        ((handleNode w node tags).1 = .skippedNoProviderID ∨
          (handleNode w node tags).1 = .skippedTagged)) := by
  refine ⟨?_, ?_, ?_⟩
  · intro h
    unfold updateFunc
    rw [if_neg h]
  · intro h1 h2
    unfold updateFunc
    rw [if_pos ⟨h1, h2⟩]
  · intro node hpid
    unfold handleNode
    by_cases h : lookupD node.annots annotKey = annotVal
    · rw [if_pos h]
      exact ⟨rfl, Or.inr rfl⟩
    · rw [if_neg h, if_pos hpid]
      exact ⟨rfl, Or.inl rfl⟩

/-- A node whose provider identifier is already set before the update. -/
def nodeOldSet : Node :=
  { name := "ip-10-0-0-3".toList
    annots := []
    providerID := "aws:///us-east-1a/i-0aaa111bbb222ccc3".toList }

/-- C8 witness: an update whose old node already had a provider
identifier does not invoke the reconciler, and a node with an empty
provider identifier is skipped silently. -/
theorem updateFunc_first_set_only_witness :
    ¬ (nodeOldSet.providerID = [] ∧ ¬ nodeUntagged.providerID = []) ∧
    updateFunc emptyWorld [(("k".toList), ("v".toList))] nodeOldSet nodeUntagged
      = (none, emptyWorld) ∧
    (handleNode emptyWorld ⟨"n".toList, [], []⟩
      [(("k".toList), ("v".toList))]).2 = emptyWorld :=
  ⟨by decide,
    (updateFunc_first_set_only emptyWorld [(("k".toList), ("v".toList))]
      nodeOldSet nodeUntagged).1 (by decide),
    ((updateFunc_first_set_only emptyWorld [(("k".toList), ("v".toList))]
      nodeOldSet nodeUntagged).2.2 ⟨"n".toList, [], []⟩ (by decide)).1⟩

theorem lookupD_setKV_self (m : List (Str × Str)) (k v : Str) :
    lookupD (setKV m k v) k = v := by
  induction m with
  | nil => simp [setKV, lookupD]
  | cons p rest ih =>
    by_cases h : p.1 == k
    · simp [setKV, h, lookupD]
    · simp only [setKV, h, Bool.false_eq_true, if_false]
      simp only [lookupD, List.find?_cons, h]
      exact ih

theorem lookupD_setKV_ne (m : List (Str × Str)) (k v k' : Str)
    (h : k' ≠ k) :
    lookupD (setKV m k v) k' = lookupD m k' := by
  have hk : (k == k') = false := by
    simp [BEq.comm]
    exact fun hh => h hh.symm
  induction m with
  | nil => simp [setKV, lookupD, hk]
  | cons p rest ih =>
    by_cases hp : p.1 == k
    · have hp' : (p.1 == k') = false := by
        have : p.1 = k := by exact eq_of_beq hp
        simp [this, hk]
      simp [setKV, hp, lookupD, List.find?_cons, hk, hp']
    · simp only [setKV, hp, Bool.false_eq_true, if_false]
      by_cases hq : p.1 == k'
      · simp [lookupD, List.find?_cons, hq]
      · simp only [lookupD, List.find?_cons, hq, Bool.false_eq_true, if_false] at ih ⊢
        exact ih

theorem mergePatch_single (m : List (Str × Str)) (k v : Str) :
    mergePatch m [(k, v)] = setKV m k v := by
  simp [mergePatch]

/-- C9: `annotateNode` records exactly one patch call, of merge flavor,
whose body sets only the single pair `annotKey := "true"`; applying that
merge-patch body to any annotation map leaves every other key unchanged
and sets the marker key to `true`. -/
theorem annotateNode_merge_single_key (w : World) (nodeName : Str) :
    (annotateNode w nodeName).2.patchCalls
      = w.patchCalls ++ [⟨nodeName, .merge, [(annotKey, annotVal)]⟩] ∧
    (∀ m k, k ≠ annotKey →
      lookupD (mergePatch m [(annotKey, annotVal)]) k = lookupD m k) ∧
    (∀ m, lookupD (mergePatch m [(annotKey, annotVal)]) annotKey = annotVal) := by
  refine ⟨(annotateNode_effect w nodeName).1, ?_, ?_⟩
  · intro m k h
    rw [mergePatch_single]
    exact lookupD_setKV_ne m annotKey annotVal k h
  · intro m
    rw [mergePatch_single]
    exact lookupD_setKV_self m annotKey annotVal

/-- C9 witness: after merge-patching a node that carries an unrelated
annotation, that annotation still reads its old value, and the marker key
reads `true`. -/
theorem annotateNode_merge_single_key_witness :
    ("team".toList : Str) ≠ annotKey ∧
    lookupD (mergePatch [(("team".toList), ("eng".toList))]
        [(annotKey, annotVal)]) ("team".toList)
      = lookupD [(("team".toList), ("eng".toList))] ("team".toList) ∧
    lookupD (mergePatch [(("team".toList), ("eng".toList))]
        [(annotKey, annotVal)]) annotKey = annotVal :=
  ⟨by decide,
    (annotateNode_merge_single_key emptyWorld ("n".toList)).2.1 _ _ (by decide),
    (annotateNode_merge_single_key emptyWorld ("n".toList)).2.2 _⟩

/-- C5: an untagged node with a valid AWS provider identifier whose
instance reports a list of attached volumes leads to exactly one
DescribeInstances call, exactly one CreateTags call whose resource list
is the instance id followed by every attached volume id under the one
tag set, and (all calls succeeding) exactly one merge patch of the
marker, with outcome tagged. -/
theorem handleNode_tags_instance_and_volumes
    (w : World) (node : Node) (tags : List (Str × Str))
    (rs : List Reservation) (dr : List (Except AWSErr (List Reservation)))
    (tr : List (Except AWSErr Unit)) (pr : List (Except Str Unit))
    (instanceID region : Str)
    (hAnn : lookupD node.annots annotKey ≠ annotVal)
    (hPid : node.providerID ≠ [])
    (hAws : ("aws://".toList).isPrefixOf node.providerID = true)
    (hI : parseInstanceID node.providerID = .ok instanceID)
    (hR : parseRegion node.providerID = .ok region)
    (hD : w.describeResps = .ok rs :: dr)
    (hT : w.tagResps = .ok () :: tr)
    (hP : w.patchResps = .ok () :: pr) :
    handleNode w node tags =
      (.tagged,
       { describeResps := dr
         tagResps := tr
         patchResps := pr
         describeCalls := w.describeCalls ++ [⟨region, [instanceID]⟩]
         tagCalls := w.tagCalls
           ++ [⟨region, instanceID :: collectVolumeIDs rs, tags⟩]
         patchCalls := w.patchCalls
           ++ [⟨node.name, .merge, [(annotKey, annotVal)]⟩]
         store := mergePatch w.store [(annotKey, annotVal)] }) := by
  simp [handleNode, listAttachedVolumes, applyTags, annotateNode,
    hAnn, hPid, hAws, hI, hR, hD, hT, hP]
  exact List.isPrefixOf_iff_prefix.mp hAws

/-- A world scripting a DescribeInstances reply with two attached EBS
volumes, then a successful CreateTags and a successful patch. -/
def worldTwoVolumes : World :=
  { describeResps :=
      [.ok [⟨[⟨[⟨some ⟨some ("vol-0aaa".toList)⟩⟩,
                ⟨some ⟨some ("vol-0bbb".toList)⟩⟩]⟩]⟩]]
    tagResps := [.ok ()]
    patchResps := [.ok ()]
    describeCalls := []
    tagCalls := []
    patchCalls := []
    store := [] }

/-- C5 witness: the reference scenario — untagged node, valid AWS
provider id, two attached volumes — yields one CreateTags call covering
the instance id and both volume ids, one marker patch, outcome tagged. -/
theorem handleNode_tags_instance_and_volumes_witness :
    handleNode worldTwoVolumes nodeUntagged [(("env".toList), ("prod".toList))]
      = (.tagged,
         { describeResps := []
           tagResps := []
           patchResps := []
           describeCalls :=
             [⟨("us-east-1".toList), [("i-0abc123def456789a".toList)]⟩]
           tagCalls :=
             [⟨("us-east-1".toList),
               [("i-0abc123def456789a".toList), ("vol-0aaa".toList),
                ("vol-0bbb".toList)],
               [(("env".toList), ("prod".toList))]⟩]
           patchCalls :=
             [⟨("ip-10-0-0-2".toList), .merge, [(annotKey, annotVal)]⟩]
           store := [(annotKey, annotVal)] }) :=
  (handleNode_tags_instance_and_volumes worldTwoVolumes nodeUntagged
    [(("env".toList), ("prod".toList))]
    [⟨[⟨[⟨some ⟨some ("vol-0aaa".toList)⟩⟩,
         ⟨some ⟨some ("vol-0bbb".toList)⟩⟩]⟩]⟩] [] [] []
    ("i-0abc123def456789a".toList) ("us-east-1".toList)
    (by decide) (by decide) (by decide) (by decide) (by decide)
    rfl rfl rfl).trans (by decide)

/-- C6: in every run of `handleNode` the marker patch is invoked exactly
when a CreateTags call was made and its reply was success; when listing
volumes or tagging fails no patch is made and the node's stored
annotations are untouched (the spec's Failed), and when tagging succeeds
but the patch fails the tag call and the patch call both happened while
the stored annotations remain without the marker (the spec's
PartialFailure). -/
theorem handleNode_patch_iff_tag_success (w : World) (node : Node)
    (tags : List (Str × Str)) :
    ((handleNode w node tags).2.patchCalls.length = w.patchCalls.length + 1 ↔
      ((handleNode w node tags).2.tagCalls.length = w.tagCalls.length + 1 ∧
        w.tagResps.head? = some (.ok ()))) ∧
    ((handleNode w node tags).1 = .listFailed ∨
        (handleNode w node tags).1 = .tagFailed →
      (handleNode w node tags).2.patchCalls = w.patchCalls ∧
      (handleNode w node tags).2.store = w.store) ∧
    ((handleNode w node tags).1 = .patchFailed →
      (handleNode w node tags).2.tagCalls.length = w.tagCalls.length + 1 ∧
      (handleNode w node tags).2.patchCalls.length = w.patchCalls.length + 1 ∧
      (handleNode w node tags).2.store = w.store) := by
  by_cases hAnn : lookupD node.annots annotKey = annotVal
  · simp [handleNode, hAnn]
  · by_cases hPid : node.providerID = []
    · simp [handleNode, hAnn, hPid]
    · cases hAws : ("aws://".toList).isPrefixOf node.providerID with
      | false =>
        simp at hAws
        simp [handleNode, hAnn, hPid, hAws]
      | true =>
        simp at hAws
        have hAwsB : (['a', 'w', 's', ':', '/', '/'] : Str).isPrefixOf
            node.providerID = true := by simpa using hAws
        cases hI : parseInstanceID node.providerID with
        | error e => simp [handleNode, hAnn, hPid, hAwsB, hI]
        | ok instanceID =>
          cases hR : parseRegion node.providerID with
          | error e => simp [handleNode, hAnn, hPid, hAwsB, hI, hR]
          | ok region =>
            cases hD : w.describeResps with
            | nil =>
              simp [handleNode, listAttachedVolumes, hAnn, hPid, hAwsB, hI,
                hR, hD]
            | cons dresp dr =>
              cases dresp with
              | error de =>
                simp [handleNode, listAttachedVolumes, hAnn, hPid, hAwsB,
                  hI, hR, hD]
              | ok rs =>
                cases hT : w.tagResps with
                | nil =>
                  simp [handleNode, listAttachedVolumes, applyTags, hAnn,
                    hPid, hAwsB, hI, hR, hD, hT]
                | cons tresp tr =>
                  cases tresp with
                  | error te =>
                    simp [handleNode, listAttachedVolumes, applyTags,
                      hAnn, hPid, hAwsB, hI, hR, hD, hT]
                  | ok tu =>
                    cases tu
                    cases hP : w.patchResps with
                    | nil =>
                      simp [handleNode, listAttachedVolumes, applyTags,
                        annotateNode, hAnn, hPid, hAwsB, hI, hR, hD, hT, hP]
                    | cons presp pr =>
                      cases presp with
                      | error pe =>
                        simp [handleNode, listAttachedVolumes, applyTags,
                          annotateNode, hAnn, hPid, hAwsB, hI, hR, hD, hT,
                          hP]
                      | ok pu =>
                        cases pu
                        simp [handleNode, listAttachedVolumes, applyTags,
                          annotateNode, hAnn, hPid, hAwsB, hI, hR, hD, hT,
                          hP]

/-- A world scripting a successful DescribeInstances and CreateTags but a
rejected marker patch. -/
def worldPatchConflict : World :=
  { describeResps := [.ok []]
    tagResps := [.ok ()]
    patchResps := [.error ("conflict".toList)]
    describeCalls := []
    tagCalls := []
    patchCalls := []
    store := [] }

/-- C6 witness: a concrete run where tagging succeeds and the patch is
rejected ends in PartialFailure with the tag call and the patch call both
made and the stored annotations untouched. -/
theorem handleNode_patch_iff_tag_success_witness :
    (handleNode worldPatchConflict nodeUntagged
      [(("env".toList), ("prod".toList))]).2.tagCalls.length
        = worldPatchConflict.tagCalls.length + 1 ∧
    (handleNode worldPatchConflict nodeUntagged
      [(("env".toList), ("prod".toList))]).2.patchCalls.length
        = worldPatchConflict.patchCalls.length + 1 ∧
    (handleNode worldPatchConflict nodeUntagged
      [(("env".toList), ("prod".toList))]).2.store
        = worldPatchConflict.store :=
  (handleNode_patch_iff_tag_success worldPatchConflict nodeUntagged
    [(("env".toList), ("prod".toList))]).2.2 (by decide)
